import Mathlib

/-!
Shallow embedding of the gtctl bare-metal cluster components (`metaSrv` from
src/unnamed/part_000 and `frontend` from src/pkg/components/frontend.go).

The Go code performs effects (directory creation, process spawning, HTTP GETs,
a ticker-driven readiness loop).  Those effects are modelled by explicit
environments:
* a `StartEnv` gives the result of each `fileutils.EnsureDir` and `runBinary`
  call;
* an `HttpEnv` gives, for each URL, the outcome of `http.Get` (a transport
  error, or a response with a status code and a flag telling whether
  `Body.Close()` succeeds);
* the `select` in metaSrv's readiness loop is driven by an oracle
  `sel : Nat -> WaitEv` choosing, at each loop step, whether the 500ms ticker
  fires or the context's done channel is ready, plus a fuel bound so the
  (possibly endless) loop is a total function.

Each component's `Start` additionally returns the trace of externally visible
events (`Ev`): directories created, processes spawned, health URLs fetched and
ticker waits, in program order, together with the final `allocatedDirs` state.
-/

namespace Gtctl

/-- Decidable equality for `Except`, used to evaluate concrete runs. -/
instance exceptDecEq {e a : Type} [DecidableEq e] [DecidableEq a] :
    DecidableEq (Except e a) :=
  fun x y =>
    match x, y with
    | Except.error u, Except.error v =>
      if h : u = v then isTrue (by rw [h])
      else isFalse (by intro hc; cases hc; exact h rfl)
    | Except.ok u, Except.ok v =>
      if h : u = v then isTrue (by rw [h])
      else isFalse (by intro hc; cases hc; exact h rfl)
    | Except.error _, Except.ok _ => isFalse (by intro hc; cases hc)
    | Except.ok _, Except.error _ => isFalse (by intro hc; cases hc)

/-- Decimal digit character; indices 0..9 are the ones ever used. -/
def digitChar (n : Nat) : Char :=
  if n = 0 then '0' else if n = 1 then '1' else if n = 2 then '2'
  else if n = 3 then '3' else if n = 4 then '4' else if n = 5 then '5'
  else if n = 6 then '6' else if n = 7 then '7' else if n = 8 then '8'
  else if n = 9 then '9' else '*'

/-- Decimal digits of `n`, most significant first, computed with fuel so the
definition is structural (fuel `n+1` always suffices since `n / 10 < n`). -/
def natDigitsCore : Nat → Nat → List Char
  | 0, _ => []
  | fuel + 1, n =>
    if n < 10 then [digitChar n]
    else natDigitsCore fuel (n / 10) ++ [digitChar (n % 10)]

/-- Decimal rendering of a natural number (the embedding of Go's
`strconv.Itoa` on non-negative values). -/
def natStr (n : Nat) : String :=
  String.mk (natDigitsCore (n + 1) n)

/-- Digit-string parsing: the embedding of Go's `strconv.Atoi` restricted to
the non-negative decimal numerals that occur as ports. -/
def parseDigits : List Char → Nat → Option Nat
  | [], acc => some acc
  | c :: cs, acc =>
    if c.isDigit then parseDigits cs (acc * 10 + (c.toNat - 48)) else none

/-- Port-string parsing (`strconv.Atoi` model): digits only, non-empty. -/
def parsePort (s : String) : Option Nat :=
  if s.data = [] then none else parseDigits s.data 0

/-- Whether a character list contains a colon. -/
def hasColon : List Char → Bool
  | [] => false
  | c :: cs => if c = ':' then true else hasColon cs

/-- Splits a character list at its unique colon; `none` when there is no colon
(Go: "missing port") or more than one (Go: "too many colons"). -/
def breakAtColon : List Char → Option (List Char × List Char)
  | [] => none
  | c :: cs =>
    if c = ':' then
      if hasColon cs then none else some ([], cs)
    else
      match breakAtColon cs with
      | some (h, p) => some (c :: h, p)
      | none => none

/-- Embedding of Go's `net.SplitHostPort` for bracket-free addresses (the only
form this code base uses): the address splits at its unique colon. -/
def splitHostPort (s : String) : Option (String × String) :=
  match breakAtColon s.data with
  | some (h, p) => some (String.mk h, String.mk p)
  | none => none

/-- Modelled from the spec: `FormatAddrArg` lives in this repository outside
the given sources (only its callers are in src/).  Per spec section 4.1 it
"derives a per-replica address by incrementing the port of `baseAddr` by
`replicaIndex`"; on malformed input the spec says the parse failure is
"propagated to the caller", which the callers in src/ realise by re-parsing
the returned string — so a string that does not parse as `host:port` with a
numeric port is returned unchanged (this is also forced by
`metaSrv.BuildArgs`, which routes the literal `"true"` through it). -/
def FormatAddrArg (addr : String) (nodeId : Nat) : String :=
  match splitHostPort addr with
  | none => addr
  | some (host, portStr) =>
    match parsePort portStr with
    | none => addr
    | some port => host ++ (":" ++ natStr (port + nodeId))

/-- Modelled from the spec: `GenerateAddrArg` lives in this repository outside
the given sources.  Per spec section 4.1 it derives the per-replica address
via the same port increment and "appends `--flagName=derivedAddr` to the
argument list, and returns the extended list" (callers pass the flag name
with its leading dashes). -/
def GenerateAddrArg (flagName addr : String) (nodeId : Nat)
    (args : List String) : List String :=
  args ++ [flagName ++ ("=" ++ FormatAddrArg addr nodeId)]

/-- Default log level used by `BuildArgs` when the config gives none; the
constant `DefaultLogLevel` is defined outside the given sources, its concrete
value is irrelevant to every claim. -/
def DefaultLogLevel : String := "info"

/-- `(m *metaSrv) Name()` (part_000 lines 56-58). -/
def metaSrvName : String := "metasrv"

/-- `(f *frontend) Name()` (frontend.go lines 55-57): the operator API
constant `FrontendComponentKind`, whose value is "frontend". -/
def frontendName : String := "frontend"

/-- Config fields of `config.MetaSrv` read by part_000.  Go's `Replicas` is an
`int`; a non-positive value runs the loops zero times, so it is a `Nat`. -/
structure MetaSrvConfig where
  BindAddr : String
  StoreAddr : String
  ServerAddr : String
  HTTPAddr : String
  Replicas : Nat
  LogLevel : String
  Config : String
deriving DecidableEq

/-- Config fields of `config.Frontend` read by frontend.go. -/
structure FrontendConfig where
  HTTPAddr : String
  GRPCAddr : String
  MysqlAddr : String
  PostgresAddr : String
  Replicas : Nat
  LogLevel : String
  Config : String
  UserProvider : String
deriving DecidableEq

/-- `(m *metaSrv) BuildArgs(nodeID, bindAddr)` (part_000 lines 112-141). -/
def metaSrvBuildArgs (cfg : MetaSrvConfig) (useMemoryMeta : Bool)
    (nodeID : Nat) (bindAddr : String) : List String :=
  let logLevel := if cfg.LogLevel = "" then DefaultLogLevel else cfg.LogLevel
  let args0 := ["--log-level=" ++ logLevel, metaSrvName, "start",
    "--store-addr=" ++ cfg.StoreAddr, "--server-addr=" ++ cfg.ServerAddr]
  let args1 := GenerateAddrArg "--http-addr" cfg.HTTPAddr nodeID args0
  let args2 := GenerateAddrArg "--bind-addr" bindAddr nodeID args1
  let args3 := if useMemoryMeta then
      GenerateAddrArg "--use-memory-store" "true" nodeID args2
    else args2
  if 0 < cfg.Config.length then args3 ++ ["-c=" ++ cfg.Config] else args3

/-- `(f *frontend) BuildArgs(nodeId)` (frontend.go lines 90-116). -/
def frontendBuildArgs (cfg : FrontendConfig) (metaSrvAddr : String)
    (nodeId : Nat) : List String :=
  let logLevel := if cfg.LogLevel = "" then DefaultLogLevel else cfg.LogLevel
  let args0 := ["--log-level=" ++ logLevel, frontendName, "start",
    "--metasrv-addrs=" ++ metaSrvAddr]
  let args1 := GenerateAddrArg "--http-addr" cfg.HTTPAddr nodeId args0
  let args2 := GenerateAddrArg "--rpc-addr" cfg.GRPCAddr nodeId args1
  let args3 := GenerateAddrArg "--mysql-addr" cfg.MysqlAddr nodeId args2
  let args4 := GenerateAddrArg "--postgres-addr" cfg.PostgresAddr nodeId args3
  let args5 := if 0 < cfg.Config.length then args4 ++ ["-c=" ++ cfg.Config]
    else args4
  if 0 < cfg.UserProvider.length then
    args5 ++ ["--user-provider=" ++ cfg.UserProvider]
  else args5

/-- Outcome of one `http.Get`: a transport error, or a response carrying its
status code and whether `Body.Close()` returns nil. -/
inductive GetResult where
  | netErr : GetResult
  | ok (statusCode : Nat) (closeOk : Bool) : GetResult
deriving DecidableEq

/-- The HTTP world: what `http.Get` returns for each URL. -/
def HttpEnv : Type := String → GetResult

/-- The health URL metaSrv probes for a replica whose derived address has the
given port string: `http://localhost:<port>/health` (part_000 line 152).
Note the configured host is discarded. -/
def metaSrvHealthURL (portStr : String) : String :=
  "http://localhost:" ++ (portStr ++ "/health")

/-- The health URL frontend probes for replica `i`:
`http://<derived addr>/health` (frontend.go line 121). -/
def frontendHealthURL (cfg : FrontendConfig) (i : Nat) : String :=
  "http://" ++ (FormatAddrArg cfg.HTTPAddr i ++ "/health")

/-- One iteration of `metaSrv.IsRunning` (part_000 lines 144-165): derive the
replica address, split it, GET the localhost health URL; the first component
is the URL actually fetched (none when `SplitHostPort` fails, so no GET
happens), the second whether the iteration passes. -/
def metaSrvReplicaProbe (cfg : MetaSrvConfig) (env : HttpEnv) (i : Nat) :
    Option String × Bool :=
  match splitHostPort (FormatAddrArg cfg.HTTPAddr i) with
  | none => (none, false)
  | some (_, portStr) =>
    let url := metaSrvHealthURL portStr
    match env url with
    | GetResult.netErr => (some url, false)
    | GetResult.ok status closeOk => (some url, status == 200 && closeOk)

/-- One iteration of `frontend.IsRunning` (frontend.go lines 119-138): GET the
derived address's health URL directly (no host/port split). -/
def frontendReplicaProbe (cfg : FrontendConfig) (env : HttpEnv) (i : Nat) :
    Option String × Bool :=
  let url := frontendHealthURL cfg i
  match env url with
  | GetResult.netErr => (some url, false)
  | GetResult.ok status closeOk => (some url, status == 200 && closeOk)

/-- The `for i := 0; i < Replicas; i++` loop shared by both `IsRunning`
bodies: run the replica probes from index `i`, `n` replicas remaining,
stopping at the first failing probe.  Returns the URLs fetched in order and
the boolean result. -/
def probeLoopFrom (step : Nat → Option String × Bool) :
    Nat → Nat → List String × Bool
  | _, 0 => ([], true)
  | i, n + 1 =>
    match step i with
    | (u, true) =>
      let r := probeLoopFrom step (i + 1) n
      (u.toList ++ r.1, r.2)
    | (u, false) => (u.toList, false)

/-- `metaSrv.IsRunning` with its fetch trace. -/
def metaSrvProbe (cfg : MetaSrvConfig) (env : HttpEnv) : List String × Bool :=
  probeLoopFrom (metaSrvReplicaProbe cfg env) 0 cfg.Replicas

/-- `(m *metaSrv) IsRunning(ctx)` (part_000 lines 143-168). -/
def metaSrvIsRunning (cfg : MetaSrvConfig) (env : HttpEnv) : Bool :=
  (metaSrvProbe cfg env).2

/-- The URLs `metaSrv.IsRunning` GETs, in order. -/
def metaSrvProbedURLs (cfg : MetaSrvConfig) (env : HttpEnv) : List String :=
  (metaSrvProbe cfg env).1

/-- `frontend.IsRunning` with its fetch trace. -/
def frontendProbe (cfg : FrontendConfig) (env : HttpEnv) :
    List String × Bool :=
  probeLoopFrom (frontendReplicaProbe cfg env) 0 cfg.Replicas

/-- `(f *frontend) IsRunning(ctx)` (frontend.go lines 118-139). -/
def frontendIsRunning (cfg : FrontendConfig) (env : HttpEnv) : Bool :=
  (frontendProbe cfg env).2

/-- The URLs `frontend.IsRunning` GETs, in order. -/
def frontendProbedURLs (cfg : FrontendConfig) (env : HttpEnv) : List String :=
  (frontendProbe cfg env).1

/-- URLs `url i, url (i+1), ..., url (i+k-1)`, in index order. -/
def urlListFrom (url : Nat → String) : Nat → Nat → List String
  | _, 0 => []
  | i, k + 1 => url i :: urlListFrom url (i + 1) k

/-- Replica `i` of metaSrv answers healthily: its derived address splits and
the localhost health URL answers 200 with a cleanly closing body. -/
def metaSrvReplicaHealthy (cfg : MetaSrvConfig) (env : HttpEnv) (i : Nat) :
    Prop :=
  ∃ host portStr,
    splitHostPort (FormatAddrArg cfg.HTTPAddr i) = some (host, portStr) ∧
    env (metaSrvHealthURL portStr) = GetResult.ok 200 true

/-- Replica `i` of frontend answers healthily: its health URL answers 200
with a cleanly closing body. -/
def frontendReplicaHealthy (cfg : FrontendConfig) (env : HttpEnv) (i : Nat) :
    Prop :=
  env (frontendHealthURL cfg i) = GetResult.ok 200 true

/-- The `WorkingDirs` pair of root paths. -/
structure WorkingDirs where
  LogsDir : String
  PidsDir : String
deriving DecidableEq

/-- The `allocatedDirs` embedded struct shared by both components. -/
structure allocatedDirs where
  logsDirs : List String
  pidsDirs : List String
deriving DecidableEq

/-- `RunOptions` (the fields set by both `Start` bodies). -/
structure RunOptions where
  Binary : String
  Name : String
  logDir : String
  pidDir : String
  args : List String
deriving DecidableEq

/-- Per-replica directory name `fmt.Sprintf("%s.%d", Name(), i)`. -/
def replicaDirName (name : String) (i : Nat) : String :=
  name ++ ("." ++ natStr i)

/-- `path.Join(workingDirs.LogsDir, dirName)`. -/
def replicaLogDir (dirs : WorkingDirs) (name : String) (i : Nat) : String :=
  dirs.LogsDir ++ ("/" ++ replicaDirName name i)

/-- `path.Join(workingDirs.PidsDir, dirName)`. -/
def replicaPidDir (dirs : WorkingDirs) (name : String) (i : Nat) : String :=
  dirs.PidsDir ++ ("/" ++ replicaDirName name i)

/-- The `RunOptions` value built for replica `i`. -/
def replicaRunOptions (name : String) (dirs : WorkingDirs) (binary : String)
    (buildArgs : Nat → List String) (i : Nat) : RunOptions :=
  { Binary := binary
    Name := replicaDirName name i
    logDir := replicaLogDir dirs name i
    pidDir := replicaPidDir dirs name i
    args := buildArgs i }

/-- Externally visible events of a `Start` call, in program order. -/
inductive Ev where
  | mkdir (path : String) : Ev
  | spawn (opt : RunOptions) : Ev
  | httpGet (url : String) : Ev
  | wait (ms : Nat) : Ev
deriving DecidableEq

/-- Results of the effectful collaborators of `Start`: `fileutils.EnsureDir`
and `runBinary` (both outside the given sources; they either succeed or
return an error, modelled as its message string). -/
structure StartEnv where
  ensureDir : String → Except String Unit
  runBinary : RunOptions → Except String Unit

/-- The `for i := 0; i < Replicas; i++` spawn loop shared by both `Start`
bodies (part_000 lines 67-91, frontend.go lines 60-85): from replica `i` with
`n` replicas remaining, ensure the log dir, record it, ensure the pid dir,
record it, spawn the binary; the first error ends the loop and is returned. -/
def spawnLoop (name : String) (dirs : WorkingDirs) (binary : String)
    (buildArgs : Nat → List String) (env : StartEnv) :
    Nat → Nat → allocatedDirs → List Ev × allocatedDirs × Except String Unit
  | _, 0, acc => ([], acc, Except.ok ())
  | i, n + 1, acc =>
    let logDir := replicaLogDir dirs name i
    match env.ensureDir logDir with
    | Except.error e => ([], acc, Except.error e)
    | Except.ok _ =>
      let acc1 : allocatedDirs := ⟨acc.logsDirs ++ [logDir], acc.pidsDirs⟩
      let pidDir := replicaPidDir dirs name i
      match env.ensureDir pidDir with
      | Except.error e => ([Ev.mkdir logDir], acc1, Except.error e)
      | Except.ok _ =>
        let acc2 : allocatedDirs := ⟨acc1.logsDirs, acc1.pidsDirs ++ [pidDir]⟩
        let opt := replicaRunOptions name dirs binary buildArgs i
        match env.runBinary opt with
        | Except.error e =>
          ([Ev.mkdir logDir, Ev.mkdir pidDir], acc2, Except.error e)
        | Except.ok _ =>
          let r := spawnLoop name dirs binary buildArgs env (i + 1) n acc2
          (Ev.mkdir logDir :: Ev.mkdir pidDir :: Ev.spawn opt :: r.1, r.2)

/-- All three per-replica operations of the spawn loop succeed for replica
`j` in the given environment. -/
def replicaOpsOk (name : String) (dirs : WorkingDirs) (binary : String)
    (buildArgs : Nat → List String) (env : StartEnv) (j : Nat) : Prop :=
  env.ensureDir (replicaLogDir dirs name j) = Except.ok () ∧
  env.ensureDir (replicaPidDir dirs name j) = Except.ok () ∧
  env.runBinary (replicaRunOptions name dirs binary buildArgs j) =
    Except.ok ()

/-- The event trace of `k` fully successful spawn-loop iterations starting at
replica `i`: for each replica, its log mkdir, its pid mkdir, then its spawn. -/
def spawnEvs (name : String) (dirs : WorkingDirs) (binary : String)
    (buildArgs : Nat → List String) : Nat → Nat → List Ev
  | _, 0 => []
  | i, k + 1 =>
    Ev.mkdir (replicaLogDir dirs name i) ::
    Ev.mkdir (replicaPidDir dirs name i) ::
    Ev.spawn (replicaRunOptions name dirs binary buildArgs i) ::
    spawnEvs name dirs binary buildArgs (i + 1) k

/-- Log-directory paths of replicas `i, i+1, ..., i+k-1`, in index order. -/
def logDirsFrom (name : String) (dirs : WorkingDirs) : Nat → Nat → List String
  | _, 0 => []
  | i, k + 1 => replicaLogDir dirs name i :: logDirsFrom name dirs (i + 1) k

/-- Pid-directory paths of replicas `i, i+1, ..., i+k-1`, in index order. -/
def pidDirsFrom (name : String) (dirs : WorkingDirs) : Nat → Nat → List String
  | _, 0 => []
  | i, k + 1 => replicaPidDir dirs name i :: pidDirsFrom name dirs (i + 1) k

/-- `allocatedDirs` after `k` fully successful iterations from replica `i`. -/
def accExtend (name : String) (dirs : WorkingDirs) (acc : allocatedDirs)
    (i k : Nat) : allocatedDirs :=
  ⟨acc.logsDirs ++ logDirsFrom name dirs i k,
   acc.pidsDirs ++ pidDirsFrom name dirs i k⟩

/-- Which branch of metaSrv's readiness `select` fires at a loop step: the
500ms ticker, or the context's done channel (part_000 lines 97-107). -/
inductive WaitEv where
  | tick : WaitEv
  | done : WaitEv
deriving DecidableEq

/-- The `CHECKER` loop of `metaSrv.Start` (part_000 lines 93-107), from loop
step `k` with the given fuel: on a tick, wait 500ms then run `IsRunning` (the
HTTP world at step `k` is `henv k`); stop with nil once it reports true.  On
the done branch return the context-cancellation error, whose message wraps
`ctx.Err()` (modelled as the string `ctxErr`).  `none` means the loop is
still running when the fuel runs out. -/
def metaSrvChecker (cfg : MetaSrvConfig) (henv : Nat → HttpEnv)
    (sel : Nat → WaitEv) (ctxErr : String) :
    Nat → Nat → List Ev × Option (Except String Unit)
  | _, 0 => ([], none)
  | k, fuel + 1 =>
    match sel k with
    | WaitEv.done =>
      ([], some (Except.error ("status checking failed: " ++ ctxErr)))
    | WaitEv.tick =>
      if (metaSrvProbe cfg (henv k)).2 then
        (Ev.wait 500 :: ((metaSrvProbe cfg (henv k)).1.map Ev.httpGet),
         some (Except.ok ()))
      else
        ((Ev.wait 500 :: ((metaSrvProbe cfg (henv k)).1.map Ev.httpGet)) ++
           (metaSrvChecker cfg henv sel ctxErr (k + 1) fuel).1,
         (metaSrvChecker cfg henv sel ctxErr (k + 1) fuel).2)

/-- The bind address `metaSrv.Start` uses: the config value when non-empty,
else the default `127.0.0.1:3002` (part_000 lines 61-65). -/
def metaSrvBindAddr (cfg : MetaSrvConfig) : String :=
  if 0 < cfg.BindAddr.length then cfg.BindAddr else "127.0.0.1:3002"

/-- The argument list `metaSrv.Start` passes to replica `i`'s process. -/
def metaSrvArgsFun (cfg : MetaSrvConfig) (useMemoryMeta : Bool) :
    Nat → List String :=
  fun i => metaSrvBuildArgs cfg useMemoryMeta i (metaSrvBindAddr cfg)

/-- `(m *metaSrv) Start` (part_000 lines 60-110): run the spawn loop over all
replicas, then, if it succeeded, the readiness checker.  Returns the event
trace, the final `allocatedDirs`, and the result (`none` when the checker is
still looping at the fuel bound). -/
def metaSrvStart (cfg : MetaSrvConfig) (useMemoryMeta : Bool)
    (dirs : WorkingDirs) (binary : String) (env : StartEnv)
    (henv : Nat → HttpEnv) (sel : Nat → WaitEv) (ctxErr : String)
    (fuel : Nat) (acc : allocatedDirs) :
    List Ev × allocatedDirs × Option (Except String Unit) :=
  let r := spawnLoop metaSrvName dirs binary
    (metaSrvArgsFun cfg useMemoryMeta) env 0 cfg.Replicas acc
  match r.2.2 with
  | Except.error e => (r.1, r.2.1, some (Except.error e))
  | Except.ok _ =>
    let c := metaSrvChecker cfg henv sel ctxErr 0 fuel
    (r.1 ++ c.1, r.2.1, c.2)

/-- `(f *frontend) Start` (frontend.go lines 59-88): the spawn loop over all
replicas and nothing else — no readiness wait. -/
def frontendStart (cfg : FrontendConfig) (metaSrvAddr : String)
    (dirs : WorkingDirs) (binary : String) (env : StartEnv)
    (acc : allocatedDirs) : List Ev × allocatedDirs × Except String Unit :=
  spawnLoop frontendName dirs binary (frontendBuildArgs cfg metaSrvAddr)
    env 0 cfg.Replicas acc

/-! ### String helper lemmas -/

lemma strData_append (a b : String) : (a ++ b).data = a.data ++ b.data := by
  cases a
  cases b
  rfl

lemma append_ne_str (p s q : String) (k : Nat) (hp : k ≤ p.data.length)
    (h : p.data.take k ≠ q.data.take k) : p ++ s ≠ q := by
  intro he
  apply h
  have hd : (p ++ s).data = q.data := congrArg String.data he
  rw [strData_append] at hd
  have h2 := congrArg (List.take k) hd
  rwa [List.take_append_of_le_length hp] at h2

lemma append_ne_append (p s q t : String) (k : Nat) (hp : k ≤ p.data.length)
    (hq : k ≤ q.data.length) (h : p.data.take k ≠ q.data.take k) :
    p ++ s ≠ q ++ t := by
  intro he
  apply h
  have hd := congrArg String.data he
  rw [strData_append, strData_append] at hd
  have h2 := congrArg (List.take k) hd
  rwa [List.take_append_of_le_length hp,
    List.take_append_of_le_length hq] at h2

lemma strLength_pos_of_ne (s : String) (h : s ≠ "") : 0 < s.length := by
  cases s with
  | mk l =>
    cases l with
    | nil => exact absurd (by decide) h
    | cons c cs => simp [String.length]

/-! ### Digit and address-parsing lemmas -/

lemma digitChar_ne_colon (m : Nat) : digitChar m ≠ ':' := by
  unfold digitChar
  repeat' split
  all_goals decide

lemma natDigitsCore_no_colon (fuel : Nat) :
    ∀ n, ':' ∉ natDigitsCore fuel n := by
  induction fuel with
  | zero => intro n; simp [natDigitsCore]
  | succ f ih =>
    intro n
    unfold natDigitsCore
    split
    · intro hmem
      have h2 := List.mem_singleton.mp hmem
      exact digitChar_ne_colon n h2.symm
    · intro hmem
      rcases List.mem_append.mp hmem with h | h
      · exact ih _ h
      · have h2 := List.mem_singleton.mp h
        exact digitChar_ne_colon _ h2.symm

lemma natStr_no_colon (n : Nat) : ':' ∉ (natStr n).data :=
  natDigitsCore_no_colon (n + 1) n

lemma parseDigits_no_colon (cs : List Char) :
    ∀ acc p, parseDigits cs acc = some p → ':' ∉ cs := by
  induction cs with
  | nil => intro acc p _; simp
  | cons c cs ih =>
    intro acc p h
    rw [parseDigits] at h
    split at h
    · intro hmem
      rcases List.mem_cons.mp hmem with h1 | h1
      · rename_i hd
        rw [← h1] at hd
        exact absurd hd (by decide)
      · exact ih _ _ h h1
    · cases h

lemma parsePort_no_colon (s : String) (p : Nat) (h : parsePort s = some p) :
    ':' ∉ s.data := by
  rw [parsePort] at h
  split at h
  · cases h
  · exact parseDigits_no_colon s.data 0 p h

lemma hasColon_eq_false (l : List Char) (h : ':' ∉ l) : hasColon l = false := by
  induction l with
  | nil => rfl
  | cons c cs ih =>
    rw [hasColon]
    have hc : ¬(c = ':') := fun he => h (he ▸ List.mem_cons_self c cs)
    rw [if_neg hc]
    exact ih (fun hm => h (List.mem_cons_of_mem c hm))

lemma breakAtColon_append (h p : List Char) (hh : ':' ∉ h) (hp : ':' ∉ p) :
    breakAtColon (h ++ ':' :: p) = some (h, p) := by
  induction h with
  | nil =>
    rw [List.nil_append, breakAtColon, if_pos rfl, hasColon_eq_false p hp]
    rfl
  | cons c cs ih =>
    have hc : ¬(c = ':') := fun he => hh (he ▸ List.mem_cons_self c cs)
    rw [List.cons_append, breakAtColon, if_neg hc,
      ih (fun hm => hh (List.mem_cons_of_mem c hm))]

lemma splitHostPort_valid (host portStr : String) (hh : ':' ∉ host.data)
    (hp : ':' ∉ portStr.data) :
    splitHostPort (host ++ (":" ++ portStr)) = some (host, portStr) := by
  rw [splitHostPort]
  have hd : (host ++ (":" ++ portStr)).data =
      host.data ++ ':' :: portStr.data := by
    rw [strData_append, strData_append]
    rfl
  rw [hd, breakAtColon_append host.data portStr.data hh hp]

lemma formatAddrArg_valid (host portStr : String) (p i : Nat)
    (hh : ':' ∉ host.data) (hp : parsePort portStr = some p) :
    FormatAddrArg (host ++ (":" ++ portStr)) i =
      host ++ (":" ++ natStr (p + i)) := by
  rw [FormatAddrArg,
    splitHostPort_valid host portStr hh (parsePort_no_colon _ _ hp)]
  simp [hp]

/-! ### Probe-loop lemmas -/

lemma probeLoopFrom_true_iff (step : Nat → Option String × Bool) :
    ∀ n i, (probeLoopFrom step i n).2 = true ↔
      ∀ j, i ≤ j → j < i + n → (step j).2 = true := by
  intro n
  induction n with
  | zero =>
    intro i
    simp only [probeLoopFrom]
    constructor
    · intro _ j h1 h2
      omega
    · intro _
      trivial
  | succ n ih =>
    intro i
    rw [probeLoopFrom]
    rcases hs : step i with ⟨u, ok⟩
    cases ok with
    | false =>
      simp only []
      constructor
      · intro h
        cases h
      · intro h
        have := h i (le_refl i) (by omega)
        rw [hs] at this
        cases this
    | true =>
      simp only []
      rw [ih (i + 1)]
      constructor
      · intro h j h1 h2
        rcases Nat.eq_or_lt_of_le h1 with he | hlt
        · rw [← he, hs]
        · exact h j hlt (by omega)
      · intro h j h1 h2
        exact h j (by omega) (by omega)

lemma probeLoopFrom_fst_of_true (step : Nat → Option String × Bool)
    (url : Nat → String) :
    ∀ n i, (∀ j, i ≤ j → j < i + n → (step j).1 = some (url j)) →
      (probeLoopFrom step i n).2 = true →
      (probeLoopFrom step i n).1 = urlListFrom url i n := by
  intro n
  induction n with
  | zero =>
    intro i _ _
    rfl
  | succ n ih =>
    intro i hu ht
    have hsi : (step i).2 = true := by
      rw [probeLoopFrom_true_iff] at ht
      exact ht i (le_refl i) (by omega)
    rw [probeLoopFrom] at ht ⊢
    rcases hs : step i with ⟨u, ok⟩
    rw [hs] at ht hsi
    cases ok with
    | false => cases hsi
    | true =>
      simp only [] at ht ⊢
      have hui : u = some (url i) := by
        have := hu i (le_refl i) (by omega)
        rw [hs] at this
        exact this
      rw [hui, urlListFrom]
      have hrest := ih (i + 1) (fun j h1 h2 => hu j (by omega) (by omega)) ht
      rw [hrest]
      rfl

lemma metaSrvReplicaProbe_true_iff (cfg : MetaSrvConfig) (env : HttpEnv)
    (i : Nat) : (metaSrvReplicaProbe cfg env i).2 = true ↔
      metaSrvReplicaHealthy cfg env i := by
  rw [metaSrvReplicaProbe, metaSrvReplicaHealthy]
  rcases hs : splitHostPort (FormatAddrArg cfg.HTTPAddr i) with _ | ⟨host, portStr⟩
  · simp
  · simp only []
    rcases he : env (metaSrvHealthURL portStr) with _ | ⟨status, closeOk⟩
    · simp only []
      constructor
      · intro h
        cases h
      · rintro ⟨h2, p2, hsp, henv⟩
        simp only [Option.some.injEq, Prod.mk.injEq] at hsp
        rcases hsp with ⟨hh, hp⟩
        subst hh
        subst hp
        rw [he] at henv
        cases henv
    · simp only []
      constructor
      · intro h
        simp only [Bool.and_eq_true, beq_iff_eq] at h
        exact ⟨host, portStr, rfl, by rw [he, h.1, h.2]⟩
      · rintro ⟨h2, p2, hsp, henv⟩
        simp only [Option.some.injEq, Prod.mk.injEq] at hsp
        rcases hsp with ⟨hh, hp⟩
        subst hh
        subst hp
        rw [he] at henv
        injection henv with e1 e2
        subst e1
        subst e2
        decide

lemma frontendReplicaProbe_true_iff (cfg : FrontendConfig) (env : HttpEnv)
    (i : Nat) : (frontendReplicaProbe cfg env i).2 = true ↔
      frontendReplicaHealthy cfg env i := by
  rw [frontendReplicaProbe, frontendReplicaHealthy]
  rcases he : env (frontendHealthURL cfg i) with _ | ⟨status, closeOk⟩
  · simp only []
    constructor
    · intro h
      cases h
    · intro h
      cases h
  · simp only []
    constructor
    · intro h
      simp only [Bool.and_eq_true, beq_iff_eq] at h
      rw [h.1, h.2]
    · intro h
      injection h with e1 e2
      subst e1
      subst e2
      decide

/-! ### Spawn-loop lemmas -/

lemma accExtend_zero (name : String) (dirs : WorkingDirs)
    (acc : allocatedDirs) (i : Nat) : accExtend name dirs acc i 0 = acc := by
  cases acc
  simp [accExtend, logDirsFrom, pidDirsFrom]

lemma accExtend_push (name : String) (dirs : WorkingDirs)
    (acc : allocatedDirs) (i k : Nat) :
    accExtend name dirs
      ⟨acc.logsDirs ++ [replicaLogDir dirs name i],
       acc.pidsDirs ++ [replicaPidDir dirs name i]⟩ (i + 1) k =
      accExtend name dirs acc i (k + 1) := by
  simp [accExtend, logDirsFrom, pidDirsFrom]

lemma spawnLoop_unroll (name : String) (dirs : WorkingDirs) (binary : String)
    (ba : Nat → List String) (env : StartEnv) :
    ∀ k m i acc,
      (∀ j, i ≤ j → j < i + k → replicaOpsOk name dirs binary ba env j) →
      spawnLoop name dirs binary ba env i (k + m) acc =
        (spawnEvs name dirs binary ba i k ++
          (spawnLoop name dirs binary ba env (i + k) m
            (accExtend name dirs acc i k)).1,
         (spawnLoop name dirs binary ba env (i + k) m
           (accExtend name dirs acc i k)).2) := by
  intro k
  induction k with
  | zero =>
    intro m i acc _
    rw [accExtend_zero]
    simp [spawnEvs]
  | succ k ih =>
    intro m i acc h
    rcases h i (le_refl i) (by omega) with ⟨h1, h2, h3⟩
    have harith : k + 1 + m = (k + m) + 1 := by omega
    rw [harith, spawnLoop, h1]
    simp only []
    rw [h2]
    simp only []
    rw [h3]
    simp only []
    rw [ih m (i + 1) ⟨acc.logsDirs ++ [replicaLogDir dirs name i],
        acc.pidsDirs ++ [replicaPidDir dirs name i]⟩
      (fun j hj1 hj2 => h j (by omega) (by omega))]
    rw [accExtend_push]
    have harith2 : i + 1 + k = i + (k + 1) := by omega
    rw [harith2, spawnEvs]
    simp

lemma spawnLoop_all_ok (name : String) (dirs : WorkingDirs) (binary : String)
    (ba : Nat → List String) (env : StartEnv) (n i : Nat)
    (acc : allocatedDirs)
    (h : ∀ j, i ≤ j → j < i + n → replicaOpsOk name dirs binary ba env j) :
    spawnLoop name dirs binary ba env i n acc =
      (spawnEvs name dirs binary ba i n,
       accExtend name dirs acc i n, Except.ok ()) := by
  have := spawnLoop_unroll name dirs binary ba env n 0 i acc h
  rw [Nat.add_zero] at this
  rw [this, spawnLoop]
  simp

lemma spawnLoop_ok_ops (name : String) (dirs : WorkingDirs) (binary : String)
    (ba : Nat → List String) (env : StartEnv) :
    ∀ n i acc,
      (spawnLoop name dirs binary ba env i n acc).2.2 = Except.ok () →
      ∀ j, i ≤ j → j < i + n → replicaOpsOk name dirs binary ba env j := by
  intro n
  induction n with
  | zero =>
    intro i acc _ j hj1 hj2
    omega
  | succ n ih =>
    intro i acc h j hj1 hj2
    rw [spawnLoop] at h
    rcases e1 : env.ensureDir (replicaLogDir dirs name i) with e | u
    · rw [e1] at h
      cases h
    · rw [e1] at h
      simp only [] at h
      rcases e2 : env.ensureDir (replicaPidDir dirs name i) with e | u2
      · rw [e2] at h
        cases h
      · rw [e2] at h
        simp only [] at h
        rcases e3 : env.runBinary (replicaRunOptions name dirs binary ba i)
          with e | u3
        · rw [e3] at h
          cases h
        · rw [e3] at h
          simp only [] at h
          rcases Nat.eq_or_lt_of_le hj1 with he | hlt
          · subst he
            cases u
            cases u2
            cases u3
            exact ⟨e1, e2, e3⟩
          · exact ih (i + 1) _ h j hlt (by omega)

lemma spawnLoop_evs_shape (name : String) (dirs : WorkingDirs)
    (binary : String) (ba : Nat → List String) (env : StartEnv) :
    ∀ n i acc, ∀ ev ∈ (spawnLoop name dirs binary ba env i n acc).1,
      (∃ p, ev = Ev.mkdir p) ∨ (∃ o, ev = Ev.spawn o) := by
  intro n
  induction n with
  | zero =>
    intro i acc ev hev
    rw [spawnLoop] at hev
    cases hev
  | succ n ih =>
    intro i acc ev hev
    rw [spawnLoop] at hev
    rcases e1 : env.ensureDir (replicaLogDir dirs name i) with e | u
    · rw [e1] at hev
      cases hev
    · rw [e1] at hev
      simp only [] at hev
      rcases e2 : env.ensureDir (replicaPidDir dirs name i) with e | u2
      · rw [e2] at hev
        rcases List.mem_singleton.mp hev with h
        exact Or.inl ⟨_, h⟩
      · rw [e2] at hev
        simp only [] at hev
        rcases e3 : env.runBinary (replicaRunOptions name dirs binary ba i)
          with e | u3
        · rw [e3] at hev
          rcases List.mem_cons.mp hev with h | h
          · exact Or.inl ⟨_, h⟩
          · rcases List.mem_singleton.mp h with h2
            exact Or.inl ⟨_, h2⟩
        · rw [e3] at hev
          simp only [] at hev
          rcases List.mem_cons.mp hev with h | h
          · exact Or.inl ⟨_, h⟩
          · rcases List.mem_cons.mp h with h2 | h2
            · exact Or.inl ⟨_, h2⟩
            · rcases List.mem_cons.mp h2 with h3 | h3
              · exact Or.inr ⟨_, h3⟩
              · exact ih (i + 1) _ ev h3

lemma spawnLoop_dirs (name : String) (dirs : WorkingDirs) (binary : String)
    (ba : Nat → List String) (env : StartEnv) :
    ∀ n i acc, ∃ k k2, (k = k2 ∨ k = k2 + 1) ∧ k ≤ n ∧
      (spawnLoop name dirs binary ba env i n acc).2.1.logsDirs =
        acc.logsDirs ++ logDirsFrom name dirs i k ∧
      (spawnLoop name dirs binary ba env i n acc).2.1.pidsDirs =
        acc.pidsDirs ++ pidDirsFrom name dirs i k2 ∧
      ((spawnLoop name dirs binary ba env i n acc).2.2 = Except.ok () →
        k = n ∧ k2 = n) := by
  intro n
  induction n with
  | zero =>
    intro i acc
    refine ⟨0, 0, Or.inl rfl, le_refl 0, ?_, ?_, fun _ => ⟨rfl, rfl⟩⟩
    · rw [spawnLoop]
      simp [logDirsFrom]
    · rw [spawnLoop]
      simp [pidDirsFrom]
  | succ n ih =>
    intro i acc
    rw [spawnLoop]
    rcases e1 : env.ensureDir (replicaLogDir dirs name i) with e | u
    · refine ⟨0, 0, Or.inl rfl, by omega, ?_, ?_, ?_⟩
      · simp [logDirsFrom]
      · simp [pidDirsFrom]
      · intro h
        cases h
    · simp only []
      rcases e2 : env.ensureDir (replicaPidDir dirs name i) with e | u2
      · refine ⟨1, 0, Or.inr rfl, by omega, ?_, ?_, ?_⟩
        · simp [logDirsFrom]
        · simp [pidDirsFrom]
        · intro h
          cases h
      · simp only []
        rcases e3 : env.runBinary (replicaRunOptions name dirs binary ba i)
          with e | u3
        · refine ⟨1, 1, Or.inl rfl, by omega, ?_, ?_, ?_⟩
          · simp [logDirsFrom]
          · simp [pidDirsFrom]
          · intro h
            cases h
        · simp only []
          rcases ih (i + 1) ⟨acc.logsDirs ++ [replicaLogDir dirs name i],
            acc.pidsDirs ++ [replicaPidDir dirs name i]⟩
            with ⟨k, k2, hpar, hle, hlog, hpid, hok⟩
          refine ⟨k + 1, k2 + 1, ?_, by omega, ?_, ?_, ?_⟩
          · rcases hpar with h | h
            · exact Or.inl (by omega)
            · exact Or.inr (by omega)
          · rw [hlog]
            simp [logDirsFrom]
          · rw [hpid]
            simp [pidDirsFrom]
          · intro h
            rcases hok h with ⟨hk, hk2⟩
            omega

/-! ### Readiness-checker lemmas -/

lemma metaSrvChecker_ok (cfg : MetaSrvConfig) (henv : Nat → HttpEnv)
    (sel : Nat → WaitEv) (ctxErr : String) :
    ∀ fuel k,
      (metaSrvChecker cfg henv sel ctxErr k fuel).2 = some (Except.ok ()) →
      ∃ j, sel j = WaitEv.tick ∧ metaSrvIsRunning cfg (henv j) = true := by
  intro fuel
  induction fuel with
  | zero =>
    intro k h
    cases h
  | succ f ih =>
    intro k h
    rw [metaSrvChecker] at h
    rcases hs : sel k with _ | _
    · rw [hs] at h
      simp only [] at h
      cases hb : (metaSrvProbe cfg (henv k)).2 with
      | true => exact ⟨k, hs, hb⟩
      | false =>
        rw [hb] at h
        simp only [Bool.false_eq_true, if_false] at h
        exact ih (k + 1) h
    · rw [hs] at h
      simp only [] at h
      cases h

lemma metaSrvChecker_error (cfg : MetaSrvConfig) (henv : Nat → HttpEnv)
    (sel : Nat → WaitEv) (ctxErr : String) :
    ∀ fuel k e,
      (metaSrvChecker cfg henv sel ctxErr k fuel).2 =
        some (Except.error e) →
      e = "status checking failed: " ++ ctxErr := by
  intro fuel
  induction fuel with
  | zero =>
    intro k e h
    cases h
  | succ f ih =>
    intro k e h
    rw [metaSrvChecker] at h
    rcases hs : sel k with _ | _
    · rw [hs] at h
      simp only [] at h
      cases hb : (metaSrvProbe cfg (henv k)).2 with
      | true =>
        rw [hb] at h
        simp only [if_true] at h
        cases h
      | false =>
        rw [hb] at h
        simp only [Bool.false_eq_true, if_false] at h
        exact ih (k + 1) e h
    · rw [hs] at h
      simp only [] at h
      injection h with h2
      injection h2 with h3
      exact h3.symm

lemma metaSrvChecker_evs_shape (cfg : MetaSrvConfig) (henv : Nat → HttpEnv)
    (sel : Nat → WaitEv) (ctxErr : String) :
    ∀ fuel k, ∀ ev ∈ (metaSrvChecker cfg henv sel ctxErr k fuel).1,
      ev = Ev.wait 500 ∨ ∃ u, ev = Ev.httpGet u := by
  intro fuel
  induction fuel with
  | zero =>
    intro k ev hev
    cases hev
  | succ f ih =>
    intro k ev hev
    rw [metaSrvChecker] at hev
    rcases hs : sel k with _ | _
    · rw [hs] at hev
      simp only [] at hev
      cases hb : (metaSrvProbe cfg (henv k)).2 with
      | true =>
        rw [hb] at hev
        simp only [if_true] at hev
        rcases List.mem_cons.mp hev with h | h
        · exact Or.inl h
        · rcases List.mem_map.mp h with ⟨u, _, hu⟩
          exact Or.inr ⟨u, hu.symm⟩
      | false =>
        rw [hb] at hev
        simp only [Bool.false_eq_true, if_false] at hev
        rcases List.mem_append.mp hev with h | h
        · rcases List.mem_cons.mp h with h2 | h2
          · exact Or.inl h2
          · rcases List.mem_map.mp h2 with ⟨u, _, hu⟩
            exact Or.inr ⟨u, hu.symm⟩
        · exact ih (k + 1) ev h
    · rw [hs] at hev
      simp only [] at hev
      cases hev

/-! ### BuildArgs lemmas -/

lemma mem_metaSrvBuildArgs (cfg : MetaSrvConfig) (useMem : Bool) (i : Nat)
    (bindAddr : String) (a : String) :
    a ∈ metaSrvBuildArgs cfg useMem i bindAddr ↔
      a = "--log-level=" ++
        (if cfg.LogLevel = "" then DefaultLogLevel else cfg.LogLevel) ∨
      a = metaSrvName ∨ a = "start" ∨
      a = "--store-addr=" ++ cfg.StoreAddr ∨
      a = "--server-addr=" ++ cfg.ServerAddr ∨
      a = "--http-addr" ++ ("=" ++ FormatAddrArg cfg.HTTPAddr i) ∨
      a = "--bind-addr" ++ ("=" ++ FormatAddrArg bindAddr i) ∨
      (useMem = true ∧
        a = "--use-memory-store" ++ ("=" ++ FormatAddrArg "true" i)) ∨
      (0 < cfg.Config.length ∧ a = "-c=" ++ cfg.Config) := by
  cases useMem <;> by_cases hc : 0 < cfg.Config.length <;>
    simp [metaSrvBuildArgs, GenerateAddrArg, hc, or_assoc]

lemma formatAddrArg_true_eq (i : Nat) : FormatAddrArg "true" i = "true" := by
  rw [FormatAddrArg]
  have h : splitHostPort "true" = none := by decide
  rw [h]

lemma metaSrvReplicaProbe_fst (cfg : MetaSrvConfig) (env : HttpEnv) (i : Nat)
    (host portStr : String) (p : Nat) (hh : ':' ∉ host.data)
    (hp : parsePort portStr = some p)
    (hM : cfg.HTTPAddr = host ++ (":" ++ portStr)) :
    (metaSrvReplicaProbe cfg env i).1 =
      some (metaSrvHealthURL (natStr (p + i))) := by
  rw [metaSrvReplicaProbe, hM, formatAddrArg_valid host portStr p i hh hp,
    splitHostPort_valid host (natStr (p + i)) hh (natStr_no_colon _)]
  simp only []
  rcases env (metaSrvHealthURL (natStr (p + i))) with _ | ⟨s, c⟩ <;> rfl

lemma frontendReplicaProbe_fst (cfg : FrontendConfig) (env : HttpEnv)
    (i : Nat) :
    (frontendReplicaProbe cfg env i).1 = some (frontendHealthURL cfg i) := by
  rw [frontendReplicaProbe]
  rcases env (frontendHealthURL cfg i) with _ | ⟨s, c⟩ <;> rfl

lemma frontendHealthURL_valid (cfg : FrontendConfig) (i : Nat)
    (host portStr : String) (p : Nat) (hh : ':' ∉ host.data)
    (hp : parsePort portStr = some p)
    (hF : cfg.HTTPAddr = host ++ (":" ++ portStr)) :
    frontendHealthURL cfg i =
      "http://" ++ ((host ++ (":" ++ natStr (p + i))) ++ "/health") := by
  rw [frontendHealthURL, hF, formatAddrArg_valid host portStr p i hh hp]

/-! ### Claim theorems -/

/-- C1: for every replica count, `IsRunning` (on both metaSrv and frontend)
returns true iff every replica index in `[0, Replicas)` passes its health
probe — HTTP 200 with a cleanly closing body at the URL the code GETs (for
metaSrv, after a successful host/port split of the derived address); the
first failing replica makes the result false regardless of the state of the
remaining replicas, as the iff's contrapositive shows. -/
theorem isRunning_true_iff_all_replicas_healthy (cfgM : MetaSrvConfig)
    (envM : HttpEnv) (cfgF : FrontendConfig) (envF : HttpEnv) :
    (metaSrvIsRunning cfgM envM = true ↔
      ∀ i, i < cfgM.Replicas → metaSrvReplicaHealthy cfgM envM i) ∧
    (frontendIsRunning cfgF envF = true ↔
      ∀ i, i < cfgF.Replicas → frontendReplicaHealthy cfgF envF i) := by
  constructor
  · rw [metaSrvIsRunning, metaSrvProbe, probeLoopFrom_true_iff]
    constructor
    · intro h i hi
      exact (metaSrvReplicaProbe_true_iff cfgM envM i).mp
        (h i (by omega) (by omega))
    · intro h j h1 h2
      exact (metaSrvReplicaProbe_true_iff cfgM envM j).mpr (h j (by omega))
  · rw [frontendIsRunning, frontendProbe, probeLoopFrom_true_iff]
    constructor
    · intro h i hi
      exact (frontendReplicaProbe_true_iff cfgF envF i).mp
        (h i (by omega) (by omega))
    · intro h j h1 h2
      exact (frontendReplicaProbe_true_iff cfgF envF j).mpr (h j (by omega))

/-- C2 counterexample: with `HTTPAddr = "127.0.0.1:4000"` and `Replicas = 2`,
`metaSrv.IsRunning` GETs `http://localhost:4000/health` and
`http://localhost:4001/health` — the URL built from the configured host,
`http://127.0.0.1:4000/health`, is never fetched even though the check
returns true, refuting the claim that the probe URL is
`http://<host>:<port>/health` for the configured host. -/
theorem metaSrv_health_probe_ignores_host_cex :
    metaSrvProbedURLs ⟨"", "", "", "127.0.0.1:4000", 2, "", ""⟩
        (fun _ => GetResult.ok 200 true) =
      ["http://localhost:4000/health", "http://localhost:4001/health"] ∧
    "http://127.0.0.1:4000/health" ∉
      metaSrvProbedURLs ⟨"", "", "", "127.0.0.1:4000", 2, "", ""⟩
        (fun _ => GetResult.ok 200 true) ∧
    metaSrvIsRunning ⟨"", "", "", "127.0.0.1:4000", 2, "", ""⟩
        (fun _ => GetResult.ok 200 true) = true := by
  decide

/-- C2 (amended): for a component whose configured HTTP address is a valid
`host:port`, the health probe of replica `i` GETs
`http://<host>:<port+i>/health` for the frontend, but
`http://localhost:<port+i>/health` for metaSrv — metaSrv keeps only the
derived port and replaces the configured host by the literal `localhost`;
on both components, when `IsRunning` returns true it has GETted every
replica's endpoint, in increasing index order. -/
theorem health_probe_urls (host portStr : String) (p : Nat)
    (cfgM : MetaSrvConfig) (cfgF : FrontendConfig) (envM envF : HttpEnv)
    (hh : ':' ∉ host.data) (hp : parsePort portStr = some p)
    (hM : cfgM.HTTPAddr = host ++ (":" ++ portStr))
    (hF : cfgF.HTTPAddr = host ++ (":" ++ portStr)) :
    (∀ i, (metaSrvReplicaProbe cfgM envM i).1 =
      some ("http://localhost:" ++ (natStr (p + i) ++ "/health"))) ∧
    (∀ i, (frontendReplicaProbe cfgF envF i).1 =
      some ("http://" ++ ((host ++ (":" ++ natStr (p + i))) ++ "/health"))) ∧
    (metaSrvIsRunning cfgM envM = true →
      metaSrvProbedURLs cfgM envM =
        urlListFrom
          (fun i => "http://localhost:" ++ (natStr (p + i) ++ "/health"))
          0 cfgM.Replicas) ∧
    (frontendIsRunning cfgF envF = true →
      frontendProbedURLs cfgF envF =
        urlListFrom
          (fun i => "http://" ++ ((host ++ (":" ++ natStr (p + i))) ++
            "/health"))
          0 cfgF.Replicas) := by
  have hmu : ∀ i, (metaSrvReplicaProbe cfgM envM i).1 =
      some ("http://localhost:" ++ (natStr (p + i) ++ "/health")) := by
    intro i
    exact metaSrvReplicaProbe_fst cfgM envM i host portStr p hh hp hM
  have hfu : ∀ i, (frontendReplicaProbe cfgF envF i).1 =
      some ("http://" ++ ((host ++ (":" ++ natStr (p + i))) ++ "/health")) := by
    intro i
    rw [frontendReplicaProbe_fst cfgF envF i,
      frontendHealthURL_valid cfgF i host portStr p hh hp hF]
  refine ⟨hmu, hfu, ?_, ?_⟩
  · intro ht
    rw [metaSrvIsRunning, metaSrvProbe] at ht
    rw [metaSrvProbedURLs, metaSrvProbe]
    exact probeLoopFrom_fst_of_true (metaSrvReplicaProbe cfgM envM) _
      cfgM.Replicas 0 (fun j _ _ => hmu j) ht
  · intro ht
    rw [frontendIsRunning, frontendProbe] at ht
    rw [frontendProbedURLs, frontendProbe]
    exact probeLoopFrom_fst_of_true (frontendReplicaProbe cfgF envF) _
      cfgF.Replicas 0 (fun j _ _ => hfu j) ht

/-- Witness for C2's amended theorem at host `127.0.0.1`, port 4000,
two replicas, an all-healthy HTTP world. -/
theorem health_probe_urls_witness :
    (metaSrvReplicaProbe ⟨"", "", "", "127.0.0.1:4000", 2, "", ""⟩
        (fun _ => GetResult.ok 200 true) 0).1 =
      some ("http://localhost:" ++ (natStr (4000 + 0) ++ "/health")) ∧
    metaSrvProbedURLs ⟨"", "", "", "127.0.0.1:4000", 2, "", ""⟩
        (fun _ => GetResult.ok 200 true) =
      urlListFrom
        (fun i => "http://localhost:" ++ (natStr (4000 + i) ++ "/health"))
        0 2 ∧
    frontendProbedURLs ⟨"127.0.0.1:4000", "", "", "", 2, "", "", ""⟩
        (fun _ => GetResult.ok 200 true) =
      urlListFrom
        (fun i => "http://" ++ (("127.0.0.1" ++ (":" ++ natStr (4000 + i))) ++
          "/health"))
        0 2 := by
  have h := health_probe_urls "127.0.0.1" "4000" 4000
    ⟨"", "", "", "127.0.0.1:4000", 2, "", ""⟩
    ⟨"127.0.0.1:4000", "", "", "", 2, "", "", ""⟩
    (fun _ => GetResult.ok 200 true) (fun _ => GetResult.ok 200 true)
    (by decide) (by decide) (by decide) (by decide)
  exact ⟨h.1 0, h.2.2.1 (by decide), h.2.2.2 (by decide)⟩

/-- C4: metaSrv's `BuildArgs` output contains `--use-memory-store=true` iff
the in-memory flag is set, and contains no `-c=<path>` argument when the
config path is empty. -/
theorem metaSrv_buildArgs_memory_and_config (cfg : MetaSrvConfig)
    (useMem : Bool) (i : Nat) (bindAddr : String) :
    ("--use-memory-store=true" ∈ metaSrvBuildArgs cfg useMem i bindAddr ↔
      useMem = true) ∧
    (cfg.Config = "" →
      ∀ s, ("-c=" ++ s) ∉ metaSrvBuildArgs cfg useMem i bindAddr) := by
  constructor
  · rw [mem_metaSrvBuildArgs]
    constructor
    · rintro (h | h | h | h | h | h | h | ⟨hu, _⟩ | ⟨_, h⟩)
      · exact absurd h.symm
          (append_ne_str "--log-level=" _ _ 3 (by decide) (by decide))
      · exact absurd h (by decide)
      · exact absurd h (by decide)
      · exact absurd h.symm
          (append_ne_str "--store-addr=" _ _ 3 (by decide) (by decide))
      · exact absurd h.symm
          (append_ne_str "--server-addr=" _ _ 3 (by decide) (by decide))
      · exact absurd h.symm
          (append_ne_str "--http-addr" _ _ 3 (by decide) (by decide))
      · exact absurd h.symm
          (append_ne_str "--bind-addr" _ _ 3 (by decide) (by decide))
      · exact hu
      · exact absurd h.symm
          (append_ne_str "-c=" _ _ 2 (by decide) (by decide))
    · intro hu
      refine Or.inr (Or.inr (Or.inr (Or.inr (Or.inr (Or.inr (Or.inr
        (Or.inl ⟨hu, ?_⟩)))))))
      rw [formatAddrArg_true_eq i]
      decide
  · intro hcfg s hmem
    rw [mem_metaSrvBuildArgs] at hmem
    rcases hmem with h | h | h | h | h | h | h | ⟨_, h⟩ | ⟨hlen, _⟩
    · exact append_ne_append "-c=" s "--log-level=" _ 2
        (by decide) (by decide) (by decide) h
    · exact append_ne_str "-c=" s metaSrvName 2 (by decide) (by decide) h
    · exact append_ne_str "-c=" s "start" 2 (by decide) (by decide) h
    · exact append_ne_append "-c=" s "--store-addr=" _ 2
        (by decide) (by decide) (by decide) h
    · exact append_ne_append "-c=" s "--server-addr=" _ 2
        (by decide) (by decide) (by decide) h
    · exact append_ne_append "-c=" s "--http-addr" _ 2
        (by decide) (by decide) (by decide) h
    · exact append_ne_append "-c=" s "--bind-addr" _ 2
        (by decide) (by decide) (by decide) h
    · exact append_ne_append "-c=" s "--use-memory-store" _ 2
        (by decide) (by decide) (by decide) h
    · rw [hcfg] at hlen
      exact absurd hlen (by decide)

/-- Witness for C4 with the in-memory flag set and an empty config path. -/
theorem metaSrv_buildArgs_memory_and_config_witness :
    "--use-memory-store=true" ∈
      metaSrvBuildArgs ⟨"", "s:1", "v:2", "h:3", 2, "", ""⟩ true 0 "b:4" ∧
    ("-c=" ++ "conf") ∉
      metaSrvBuildArgs ⟨"", "s:1", "v:2", "h:3", 2, "", ""⟩ true 0 "b:4" := by
  have h := metaSrv_buildArgs_memory_and_config
    ⟨"", "s:1", "v:2", "h:3", 2, "", ""⟩ true 0 "b:4"
  exact ⟨h.1.mpr rfl, h.2 rfl "conf"⟩

/-- C5 (spec-modelled): for a valid `host:port` base address and any replica
index, `FormatAddrArg` derives `host:(port+i)` and `GenerateAddrArg` returns
the argument list extended with exactly the one new element
`flagName=host:(port+i)`, the existing elements unchanged. -/
theorem generateAddrArg_appends_derived_addr (flagName host portStr : String)
    (p i : Nat) (args : List String) (hh : ':' ∉ host.data)
    (hp : parsePort portStr = some p) :
    FormatAddrArg (host ++ (":" ++ portStr)) i =
      host ++ (":" ++ natStr (p + i)) ∧
    GenerateAddrArg flagName (host ++ (":" ++ portStr)) i args =
      args ++ [flagName ++ ("=" ++ (host ++ (":" ++ natStr (p + i))))] := by
  have h := formatAddrArg_valid host portStr p i hh hp
  exact ⟨h, by rw [GenerateAddrArg, h]⟩

/-- Witness for C5 at base address `127.0.0.1:4000`, replica index 1. -/
theorem generateAddrArg_appends_derived_addr_witness :
    FormatAddrArg ("127.0.0.1" ++ (":" ++ "4000")) 1 =
      "127.0.0.1" ++ (":" ++ natStr (4000 + 1)) ∧
    GenerateAddrArg "--http-addr" ("127.0.0.1" ++ (":" ++ "4000")) 1 ["a"] =
      ["a"] ++ ["--http-addr" ++ ("=" ++ ("127.0.0.1" ++
        (":" ++ natStr (4000 + 1))))] :=
  generateAddrArg_appends_derived_addr "--http-addr" "127.0.0.1" "4000"
    4000 1 ["a"] (by decide) (by decide)

/-- C10: with an empty `BindAddr`, `metaSrv.Start` uses the default base
`127.0.0.1:3002`, so the argument list of replica `i` contains
`--bind-addr=127.0.0.1:(3002+i)`; a non-empty `BindAddr` replaces the
default entirely. -/
theorem metaSrv_default_bind_addr (cfg : MetaSrvConfig) (useMem : Bool)
    (i : Nat) :
    (cfg.BindAddr = "" →
      metaSrvBindAddr cfg = "127.0.0.1:3002" ∧
      ("--bind-addr" ++ ("=" ++ ("127.0.0.1" ++ (":" ++ natStr (3002 + i)))))
        ∈ metaSrvArgsFun cfg useMem i) ∧
    (cfg.BindAddr ≠ "" → metaSrvBindAddr cfg = cfg.BindAddr) := by
  constructor
  · intro h
    have hb : metaSrvBindAddr cfg = "127.0.0.1:3002" := by
      rw [metaSrvBindAddr, h, if_neg (by decide)]
    refine ⟨hb, ?_⟩
    have hf : FormatAddrArg "127.0.0.1:3002" i =
        "127.0.0.1" ++ (":" ++ natStr (3002 + i)) := by
      have h1 : ("127.0.0.1:3002" : String) =
          "127.0.0.1" ++ (":" ++ "3002") := by decide
      rw [h1, formatAddrArg_valid "127.0.0.1" "3002" 3002 i
        (by decide) (by decide)]
    rw [metaSrvArgsFun]
    rw [mem_metaSrvBuildArgs, hb]
    exact Or.inr (Or.inr (Or.inr (Or.inr (Or.inr (Or.inr (Or.inl
      (by rw [hf])))))))
  · intro h
    rw [metaSrvBindAddr, if_pos (strLength_pos_of_ne _ h)]

/-- Witness for C10: default bind address at replica index 1, and a
non-empty bind address passing through unchanged. -/
theorem metaSrv_default_bind_addr_witness :
    (metaSrvBindAddr ⟨"", "", "", "h:3", 1, "", ""⟩ = "127.0.0.1:3002" ∧
      ("--bind-addr" ++ ("=" ++ ("127.0.0.1" ++ (":" ++ natStr (3002 + 1)))))
        ∈ metaSrvArgsFun ⟨"", "", "", "h:3", 1, "", ""⟩ false 1) ∧
    metaSrvBindAddr ⟨"9.9.9.9:77", "", "", "h:3", 1, "", ""⟩ = "9.9.9.9:77" := by
  refine ⟨(metaSrv_default_bind_addr ⟨"", "", "", "h:3", 1, "", ""⟩ false 1).1
    rfl, ?_⟩
  exact (metaSrv_default_bind_addr ⟨"9.9.9.9:77", "", "", "h:3", 1, "", ""⟩
    false 1).2 (by decide)

/-- Witness for C1: one replica, an all-healthy HTTP world, both checks
report running. -/
theorem isRunning_true_iff_all_replicas_healthy_witness :
    metaSrvIsRunning ⟨"", "", "", "127.0.0.1:4000", 1, "", ""⟩
      (fun _ => GetResult.ok 200 true) = true ∧
    frontendIsRunning ⟨"127.0.0.1:4000", "", "", "", 1, "", "", ""⟩
      (fun _ => GetResult.ok 200 true) = true := by
  have h := isRunning_true_iff_all_replicas_healthy
    ⟨"", "", "", "127.0.0.1:4000", 1, "", ""⟩ (fun _ => GetResult.ok 200 true)
    ⟨"127.0.0.1:4000", "", "", "", 1, "", "", ""⟩
    (fun _ => GetResult.ok 200 true)
  refine ⟨h.1.mpr ?_, h.2.mpr ?_⟩
  · intro i hi
    have hi2 : i < 1 := hi
    have hz : i = 0 := by omega
    subst hz
    exact ⟨"127.0.0.1", "4000", by decide, rfl⟩
  · intro i hi
    rfl

/-- C3: when every per-replica operation succeeds, `Start` (on both
components) produces, for replicas `0, 1, ..., Replicas-1` in order, the log
directory creation, then the pid directory creation, then the spawn of that
replica (this is exactly `spawnEvs`: N log mkdirs and N pid mkdirs, each
pair preceding its replica's spawn); metaSrv's trailing checker events
contain no directory creation and no spawn. -/
theorem start_creates_dirs_then_spawns (cfgM : MetaSrvConfig) (useMem : Bool)
    (dirsM : WorkingDirs) (binM : String) (envM : StartEnv)
    (henv : Nat → HttpEnv) (sel : Nat → WaitEv) (ctxErr : String)
    (fuel : Nat) (accM : allocatedDirs) (cfgF : FrontendConfig)
    (msAddr : String) (dirsF : WorkingDirs) (binF : String)
    (envF : StartEnv) (accF : allocatedDirs)
    (hM : ∀ j, j < cfgM.Replicas →
      replicaOpsOk metaSrvName dirsM binM (metaSrvArgsFun cfgM useMem) envM j)
    (hF : ∀ j, j < cfgF.Replicas →
      replicaOpsOk frontendName dirsF binF (frontendBuildArgs cfgF msAddr)
        envF j) :
    (∃ cevs,
      (metaSrvStart cfgM useMem dirsM binM envM henv sel ctxErr fuel accM).1 =
        spawnEvs metaSrvName dirsM binM (metaSrvArgsFun cfgM useMem) 0
          cfgM.Replicas ++ cevs ∧
      (∀ p, Ev.mkdir p ∉ cevs) ∧ (∀ o, Ev.spawn o ∉ cevs)) ∧
    (frontendStart cfgF msAddr dirsF binF envF accF).1 =
      spawnEvs frontendName dirsF binF (frontendBuildArgs cfgF msAddr) 0
        cfgF.Replicas := by
  have hrM := spawnLoop_all_ok metaSrvName dirsM binM
    (metaSrvArgsFun cfgM useMem) envM cfgM.Replicas 0 accM
    (fun j _ hj => hM j (by omega))
  have hrF := spawnLoop_all_ok frontendName dirsF binF
    (frontendBuildArgs cfgF msAddr) envF cfgF.Replicas 0 accF
    (fun j _ hj => hF j (by omega))
  constructor
  · refine ⟨(metaSrvChecker cfgM henv sel ctxErr 0 fuel).1, ?_, ?_, ?_⟩
    · simp only [metaSrvStart, hrM]
    · intro p hp
      rcases metaSrvChecker_evs_shape cfgM henv sel ctxErr fuel 0 _ hp
        with h | ⟨u, h⟩ <;> cases h
    · intro o ho
      rcases metaSrvChecker_evs_shape cfgM henv sel ctxErr fuel 0 _ ho
        with h | ⟨u, h⟩ <;> cases h
  · rw [frontendStart, hrF]

/-- Witness for C3: one replica on each component, an all-succeeding
environment; the frontend trace is exactly its replica's three events. -/
theorem start_creates_dirs_then_spawns_witness :
    (frontendStart ⟨"127.0.0.1:4000", "g:1", "m:2", "q:3", 1, "", "", ""⟩
        "ms:9" ⟨"logs", "pids"⟩ "bin"
        ⟨fun _ => Except.ok (), fun _ => Except.ok ()⟩ ⟨[], []⟩).1 =
      spawnEvs frontendName ⟨"logs", "pids"⟩ "bin"
        (frontendBuildArgs ⟨"127.0.0.1:4000", "g:1", "m:2", "q:3", 1, "", "",
          ""⟩ "ms:9") 0 1 :=
  (start_creates_dirs_then_spawns ⟨"", "", "", "127.0.0.1:4000", 1, "", ""⟩
    false ⟨"logs", "pids"⟩ "bin"
    ⟨fun _ => Except.ok (), fun _ => Except.ok ()⟩
    (fun _ _ => GetResult.ok 200 true) (fun _ => WaitEv.tick) "cause" 1
    ⟨[], []⟩ ⟨"127.0.0.1:4000", "g:1", "m:2", "q:3", 1, "", "", ""⟩ "ms:9"
    ⟨"logs", "pids"⟩ "bin" ⟨fun _ => Except.ok (), fun _ => Except.ok ()⟩
    ⟨[], []⟩ (fun _ _ => ⟨rfl, rfl, rfl⟩) (fun _ _ => ⟨rfl, rfl, rfl⟩)).2

/-- C6: `metaSrv.Start` returns nil only after a ticker fire at which
`IsRunning` reported true; a checker error is always the
context-cancellation error; every ticker wait in the checker trace is the
500ms interval.  `frontend.Start` succeeds as soon as all spawns succeed and
its trace contains no HTTP health fetch and no ticker wait at all. -/
theorem start_readiness_wait_semantics (cfgM : MetaSrvConfig) (useMem : Bool)
    (dirsM : WorkingDirs) (binM : String) (envM : StartEnv)
    (henv : Nat → HttpEnv) (sel : Nat → WaitEv) (ctxErr : String)
    (fuel : Nat) (accM : allocatedDirs) (cfgF : FrontendConfig)
    (msAddr : String) (dirsF : WorkingDirs) (binF : String)
    (envF : StartEnv) (accF : allocatedDirs) :
    ((metaSrvStart cfgM useMem dirsM binM envM henv sel ctxErr fuel
        accM).2.2 = some (Except.ok ()) →
      ∃ j, sel j = WaitEv.tick ∧ metaSrvIsRunning cfgM (henv j) = true) ∧
    (∀ e, (metaSrvChecker cfgM henv sel ctxErr 0 fuel).2 =
        some (Except.error e) →
      e = "status checking failed: " ++ ctxErr) ∧
    (∀ w, Ev.wait w ∈ (metaSrvChecker cfgM henv sel ctxErr 0 fuel).1 →
      w = 500) ∧
    ((∀ j, j < cfgF.Replicas →
        replicaOpsOk frontendName dirsF binF (frontendBuildArgs cfgF msAddr)
          envF j) →
      (frontendStart cfgF msAddr dirsF binF envF accF).2.2 = Except.ok ()) ∧
    (∀ ev ∈ (frontendStart cfgF msAddr dirsF binF envF accF).1,
      (∀ u, ev ≠ Ev.httpGet u) ∧ (∀ w, ev ≠ Ev.wait w)) := by
  refine ⟨?_, ?_, ?_, ?_, ?_⟩
  · intro h
    simp only [metaSrvStart] at h
    rcases hr : (spawnLoop metaSrvName dirsM binM
        (metaSrvArgsFun cfgM useMem) envM 0 cfgM.Replicas accM).2.2
      with e | u
    · rw [hr] at h
      simp only [] at h
      cases h
    · rw [hr] at h
      simp only [] at h
      exact metaSrvChecker_ok cfgM henv sel ctxErr fuel 0 h
  · intro e h
    exact metaSrvChecker_error cfgM henv sel ctxErr fuel 0 e h
  · intro w hw
    rcases metaSrvChecker_evs_shape cfgM henv sel ctxErr fuel 0 _ hw
      with h | ⟨u, h⟩
    · injection h
    · cases h
  · intro hF
    rw [frontendStart, spawnLoop_all_ok frontendName dirsF binF
      (frontendBuildArgs cfgF msAddr) envF cfgF.Replicas 0 accF
      (fun j _ hj => hF j (by omega))]
  · intro ev hev
    rcases spawnLoop_evs_shape frontendName dirsF binF
        (frontendBuildArgs cfgF msAddr) envF cfgF.Replicas 0 accF ev hev
      with ⟨p, h⟩ | ⟨o, h⟩ <;> subst h <;>
      exact ⟨fun u hc => Ev.noConfusion hc, fun w hc => Ev.noConfusion hc⟩

/-- Witness for C6: a run whose spawn phase is empty and whose first tick
sees a healthy cluster, so `Start` returns nil; the ∃ is produced by the
theorem. -/
theorem start_readiness_wait_semantics_witness :
    ∃ j, (fun _ : Nat => WaitEv.tick) j = WaitEv.tick ∧
      metaSrvIsRunning ⟨"", "", "", "127.0.0.1:4000", 0, "", ""⟩
        ((fun _ _ => GetResult.ok 200 true) j) = true :=
  (start_readiness_wait_semantics ⟨"", "", "", "127.0.0.1:4000", 0, "", ""⟩
    false ⟨"l", "p"⟩ "bin" ⟨fun _ => Except.ok (), fun _ => Except.ok ()⟩
    (fun _ _ => GetResult.ok 200 true) (fun _ => WaitEv.tick) "cause" 1
    ⟨[], []⟩ ⟨"", "", "", "", 0, "", "", ""⟩ "ms" ⟨"l", "p"⟩ "bin"
    ⟨fun _ => Except.ok (), fun _ => Except.ok ()⟩ ⟨[], []⟩).1 (by decide)

/-- C7: when the spawn phase has succeeded and the very first `select` of
the readiness loop takes the context's done branch (the context is already
cancelled when the loop is reached), `metaSrv.Start` terminates within that
single step for any positive fuel and returns the error
`status checking failed: <ctx.Err()>`, which carries the cancellation
cause. -/
theorem metaSrv_start_pre_cancelled_ctx (cfg : MetaSrvConfig) (useMem : Bool)
    (dirs : WorkingDirs) (binary : String) (env : StartEnv)
    (henv : Nat → HttpEnv) (sel : Nat → WaitEv) (ctxErr : String)
    (fuel : Nat) (acc : allocatedDirs)
    (hspawn : (spawnLoop metaSrvName dirs binary (metaSrvArgsFun cfg useMem)
      env 0 cfg.Replicas acc).2.2 = Except.ok ())
    (hdone : sel 0 = WaitEv.done) (hfuel : 0 < fuel) :
    (metaSrvStart cfg useMem dirs binary env henv sel ctxErr fuel acc).2.2 =
      some (Except.error ("status checking failed: " ++ ctxErr)) := by
  simp only [metaSrvStart]
  rw [hspawn]
  simp only []
  rcases fuel with _ | f
  · omega
  · rw [metaSrvChecker, hdone]

/-- Witness for C7: empty spawn phase, pre-cancelled context with cause
`context canceled`, fuel 1. -/
theorem metaSrv_start_pre_cancelled_ctx_witness :
    (metaSrvStart ⟨"", "", "", "127.0.0.1:4000", 0, "", ""⟩ false ⟨"l", "p"⟩
        "bin" ⟨fun _ => Except.ok (), fun _ => Except.ok ()⟩
        (fun _ _ => GetResult.ok 200 true) (fun _ => WaitEv.done)
        "context canceled" 1 ⟨[], []⟩).2.2 =
      some (Except.error ("status checking failed: " ++ "context canceled")) :=
  metaSrv_start_pre_cancelled_ctx ⟨"", "", "", "127.0.0.1:4000", 0, "", ""⟩
    false ⟨"l", "p"⟩ "bin" ⟨fun _ => Except.ok (), fun _ => Except.ok ()⟩
    (fun _ _ => GetResult.ok 200 true) (fun _ => WaitEv.done)
    "context canceled" 1 ⟨[], []⟩ (by decide) rfl (by decide)

lemma spawnLoop_stop_cases (name : String) (dirs : WorkingDirs)
    (binary : String) (ba : Nat → List String) (env : StartEnv) (n i : Nat)
    (acc : allocatedDirs) (e : String) (hin : i < n)
    (hok : ∀ j, j < i → replicaOpsOk name dirs binary ba env j) :
    (env.ensureDir (replicaLogDir dirs name i) = Except.error e →
      (spawnLoop name dirs binary ba env 0 n acc).2.2 = Except.error e ∧
      (spawnLoop name dirs binary ba env 0 n acc).1 =
        spawnEvs name dirs binary ba 0 i) ∧
    (env.ensureDir (replicaLogDir dirs name i) = Except.ok () →
     env.ensureDir (replicaPidDir dirs name i) = Except.error e →
      (spawnLoop name dirs binary ba env 0 n acc).2.2 = Except.error e ∧
      (spawnLoop name dirs binary ba env 0 n acc).1 =
        spawnEvs name dirs binary ba 0 i ++
          [Ev.mkdir (replicaLogDir dirs name i)]) ∧
    (env.ensureDir (replicaLogDir dirs name i) = Except.ok () →
     env.ensureDir (replicaPidDir dirs name i) = Except.ok () →
     env.runBinary (replicaRunOptions name dirs binary ba i) =
       Except.error e →
      (spawnLoop name dirs binary ba env 0 n acc).2.2 = Except.error e ∧
      (spawnLoop name dirs binary ba env 0 n acc).1 =
        spawnEvs name dirs binary ba 0 i ++
          [Ev.mkdir (replicaLogDir dirs name i),
           Ev.mkdir (replicaPidDir dirs name i)]) := by
  obtain ⟨m, hm⟩ : ∃ m, n = i + (m + 1) := ⟨n - i - 1, by omega⟩
  subst hm
  have hu := spawnLoop_unroll name dirs binary ba env i (m + 1) 0 acc
    (fun j _ hj => hok j (by omega))
  simp only [Nat.zero_add] at hu
  refine ⟨?_, ?_, ?_⟩
  · intro h1
    have hstep : spawnLoop name dirs binary ba env i (m + 1)
        (accExtend name dirs acc 0 i) =
        ([], accExtend name dirs acc 0 i, Except.error e) := by
      rw [spawnLoop, h1]
    rw [hu, hstep]
    exact ⟨rfl, by simp⟩
  · intro h1 h2
    have hstep : spawnLoop name dirs binary ba env i (m + 1)
        (accExtend name dirs acc 0 i) =
        ([Ev.mkdir (replicaLogDir dirs name i)],
         ⟨(accExtend name dirs acc 0 i).logsDirs ++
            [replicaLogDir dirs name i],
          (accExtend name dirs acc 0 i).pidsDirs⟩,
         Except.error e) := by
      rw [spawnLoop, h1]
      simp only []
      rw [h2]
    rw [hu, hstep]
    exact ⟨rfl, rfl⟩
  · intro h1 h2 h3
    have hstep : spawnLoop name dirs binary ba env i (m + 1)
        (accExtend name dirs acc 0 i) =
        ([Ev.mkdir (replicaLogDir dirs name i),
          Ev.mkdir (replicaPidDir dirs name i)],
         ⟨(accExtend name dirs acc 0 i).logsDirs ++
            [replicaLogDir dirs name i],
          (accExtend name dirs acc 0 i).pidsDirs ++
            [replicaPidDir dirs name i]⟩,
         Except.error e) := by
      rw [spawnLoop, h1]
      simp only []
      rw [h2]
      simp only []
      rw [h3]
    rw [hu, hstep]
    exact ⟨rfl, rfl⟩

lemma metaSrvStart_of_spawn_error (cfg : MetaSrvConfig) (useMem : Bool)
    (dirs : WorkingDirs) (binary : String) (env : StartEnv)
    (henv : Nat → HttpEnv) (sel : Nat → WaitEv) (ctxErr : String)
    (fuel : Nat) (acc : allocatedDirs) (e : String)
    (h : (spawnLoop metaSrvName dirs binary (metaSrvArgsFun cfg useMem) env
      0 cfg.Replicas acc).2.2 = Except.error e) :
    (metaSrvStart cfg useMem dirs binary env henv sel ctxErr fuel acc).2.2 =
      some (Except.error e) ∧
    (metaSrvStart cfg useMem dirs binary env henv sel ctxErr fuel acc).1 =
      (spawnLoop metaSrvName dirs binary (metaSrvArgsFun cfg useMem) env
        0 cfg.Replicas acc).1 := by
  simp only [metaSrvStart]
  rw [h]
  exact ⟨rfl, rfl⟩

/-- C8: with all operations of earlier replicas succeeding, the first
failing operation of replica `i` — log-directory creation, pid-directory
creation, or spawn — makes `Start` (on both components) return exactly that
error, with no event for any later replica and none for replica `i` past
the failing operation; and `IsRunning` is a boolean: any replica whose
probe fails (parse, transport, status or close) yields the result `false`,
never an error value. -/
theorem start_error_propagation_and_bool_health (cfgM : MetaSrvConfig)
    (useMem : Bool) (dirsM : WorkingDirs) (binM : String) (envM : StartEnv)
    (henv : Nat → HttpEnv) (sel : Nat → WaitEv) (ctxErr : String)
    (fuel : Nat) (accM : allocatedDirs) (cfgF : FrontendConfig)
    (msAddr : String) (dirsF : WorkingDirs) (binF : String)
    (envF : StartEnv) (accF : allocatedDirs) (iM iF : Nat) (e : String)
    (hiM : iM < cfgM.Replicas)
    (hokM : ∀ j, j < iM →
      replicaOpsOk metaSrvName dirsM binM (metaSrvArgsFun cfgM useMem) envM j)
    (hiF : iF < cfgF.Replicas)
    (hokF : ∀ j, j < iF →
      replicaOpsOk frontendName dirsF binF (frontendBuildArgs cfgF msAddr)
        envF j) :
    ((envM.ensureDir (replicaLogDir dirsM metaSrvName iM) = Except.error e →
       (metaSrvStart cfgM useMem dirsM binM envM henv sel ctxErr fuel
         accM).2.2 = some (Except.error e) ∧
       (metaSrvStart cfgM useMem dirsM binM envM henv sel ctxErr fuel
         accM).1 =
         spawnEvs metaSrvName dirsM binM (metaSrvArgsFun cfgM useMem) 0 iM) ∧
     (envM.ensureDir (replicaLogDir dirsM metaSrvName iM) = Except.ok () →
      envM.ensureDir (replicaPidDir dirsM metaSrvName iM) = Except.error e →
       (metaSrvStart cfgM useMem dirsM binM envM henv sel ctxErr fuel
         accM).2.2 = some (Except.error e) ∧
       (metaSrvStart cfgM useMem dirsM binM envM henv sel ctxErr fuel
         accM).1 =
         spawnEvs metaSrvName dirsM binM (metaSrvArgsFun cfgM useMem) 0 iM ++
           [Ev.mkdir (replicaLogDir dirsM metaSrvName iM)]) ∧
     (envM.ensureDir (replicaLogDir dirsM metaSrvName iM) = Except.ok () →
      envM.ensureDir (replicaPidDir dirsM metaSrvName iM) = Except.ok () →
      envM.runBinary (replicaRunOptions metaSrvName dirsM binM
        (metaSrvArgsFun cfgM useMem) iM) = Except.error e →
       (metaSrvStart cfgM useMem dirsM binM envM henv sel ctxErr fuel
         accM).2.2 = some (Except.error e) ∧
       (metaSrvStart cfgM useMem dirsM binM envM henv sel ctxErr fuel
         accM).1 =
         spawnEvs metaSrvName dirsM binM (metaSrvArgsFun cfgM useMem) 0 iM ++
           [Ev.mkdir (replicaLogDir dirsM metaSrvName iM),
            Ev.mkdir (replicaPidDir dirsM metaSrvName iM)])) ∧
    ((envF.ensureDir (replicaLogDir dirsF frontendName iF) =
        Except.error e →
       (frontendStart cfgF msAddr dirsF binF envF accF).2.2 =
         Except.error e ∧
       (frontendStart cfgF msAddr dirsF binF envF accF).1 =
         spawnEvs frontendName dirsF binF (frontendBuildArgs cfgF msAddr)
           0 iF) ∧
     (envF.ensureDir (replicaLogDir dirsF frontendName iF) = Except.ok () →
      envF.ensureDir (replicaPidDir dirsF frontendName iF) =
        Except.error e →
       (frontendStart cfgF msAddr dirsF binF envF accF).2.2 =
         Except.error e ∧
       (frontendStart cfgF msAddr dirsF binF envF accF).1 =
         spawnEvs frontendName dirsF binF (frontendBuildArgs cfgF msAddr)
           0 iF ++ [Ev.mkdir (replicaLogDir dirsF frontendName iF)]) ∧
     (envF.ensureDir (replicaLogDir dirsF frontendName iF) = Except.ok () →
      envF.ensureDir (replicaPidDir dirsF frontendName iF) = Except.ok () →
      envF.runBinary (replicaRunOptions frontendName dirsF binF
        (frontendBuildArgs cfgF msAddr) iF) = Except.error e →
       (frontendStart cfgF msAddr dirsF binF envF accF).2.2 =
         Except.error e ∧
       (frontendStart cfgF msAddr dirsF binF envF accF).1 =
         spawnEvs frontendName dirsF binF (frontendBuildArgs cfgF msAddr)
           0 iF ++
           [Ev.mkdir (replicaLogDir dirsF frontendName iF),
            Ev.mkdir (replicaPidDir dirsF frontendName iF)])) ∧
    (∀ (cfg2 : MetaSrvConfig) (env2 : HttpEnv) (j : Nat),
      j < cfg2.Replicas → (metaSrvReplicaProbe cfg2 env2 j).2 = false →
      metaSrvIsRunning cfg2 env2 = false) ∧
    (∀ (cfg3 : FrontendConfig) (env3 : HttpEnv) (j : Nat),
      j < cfg3.Replicas → (frontendReplicaProbe cfg3 env3 j).2 = false →
      frontendIsRunning cfg3 env3 = false) := by
  have hscM := spawnLoop_stop_cases metaSrvName dirsM binM
    (metaSrvArgsFun cfgM useMem) envM cfgM.Replicas iM accM e hiM hokM
  have hscF := spawnLoop_stop_cases frontendName dirsF binF
    (frontendBuildArgs cfgF msAddr) envF cfgF.Replicas iF accF e hiF hokF
  refine ⟨⟨?_, ?_, ?_⟩, ⟨?_, ?_, ?_⟩, ?_, ?_⟩
  · intro h1
    rcases hscM.1 h1 with ⟨hr, ht⟩
    have hm := metaSrvStart_of_spawn_error cfgM useMem dirsM binM envM henv
      sel ctxErr fuel accM e hr
    exact ⟨hm.1, by rw [hm.2, ht]⟩
  · intro h1 h2
    rcases hscM.2.1 h1 h2 with ⟨hr, ht⟩
    have hm := metaSrvStart_of_spawn_error cfgM useMem dirsM binM envM henv
      sel ctxErr fuel accM e hr
    exact ⟨hm.1, by rw [hm.2, ht]⟩
  · intro h1 h2 h3
    rcases hscM.2.2 h1 h2 h3 with ⟨hr, ht⟩
    have hm := metaSrvStart_of_spawn_error cfgM useMem dirsM binM envM henv
      sel ctxErr fuel accM e hr
    exact ⟨hm.1, by rw [hm.2, ht]⟩
  · intro h1
    rcases hscF.1 h1 with ⟨hr, ht⟩
    exact ⟨hr, ht⟩
  · intro h1 h2
    rcases hscF.2.1 h1 h2 with ⟨hr, ht⟩
    exact ⟨hr, ht⟩
  · intro h1 h2 h3
    rcases hscF.2.2 h1 h2 h3 with ⟨hr, ht⟩
    exact ⟨hr, ht⟩
  · intro cfg2 env2 j hj hfail
    cases hb : metaSrvIsRunning cfg2 env2 with
    | false => rfl
    | true =>
      exfalso
      rw [metaSrvIsRunning, metaSrvProbe] at hb
      have h2 := (probeLoopFrom_true_iff (metaSrvReplicaProbe cfg2 env2)
        cfg2.Replicas 0).mp hb j (by omega) (by omega)
      rw [hfail] at h2
      cases h2
  · intro cfg3 env3 j hj hfail
    cases hb : frontendIsRunning cfg3 env3 with
    | false => rfl
    | true =>
      exfalso
      rw [frontendIsRunning, frontendProbe] at hb
      have h2 := (probeLoopFrom_true_iff (frontendReplicaProbe cfg3 env3)
        cfg3.Replicas 0).mp hb j (by omega) (by omega)
      rw [hfail] at h2
      cases h2

/-- Witness for C8: the frontend's log-directory creation of replica 0
fails with `boom`; `Start` returns exactly that error and no event was
emitted. -/
theorem start_error_propagation_and_bool_health_witness :
    (frontendStart ⟨"h:1", "g:2", "m:3", "q:4", 1, "", "", ""⟩ "ms"
        ⟨"l", "p"⟩ "bin"
        ⟨fun q => if q = "l/frontend.0" then Except.error "boom"
          else Except.ok (), fun _ => Except.ok ()⟩ ⟨[], []⟩).2.2 =
      Except.error "boom" ∧
    (frontendStart ⟨"h:1", "g:2", "m:3", "q:4", 1, "", "", ""⟩ "ms"
        ⟨"l", "p"⟩ "bin"
        ⟨fun q => if q = "l/frontend.0" then Except.error "boom"
          else Except.ok (), fun _ => Except.ok ()⟩ ⟨[], []⟩).1 =
      spawnEvs frontendName ⟨"l", "p"⟩ "bin"
        (frontendBuildArgs ⟨"h:1", "g:2", "m:3", "q:4", 1, "", "", ""⟩ "ms")
        0 0 := by
  have h := start_error_propagation_and_bool_health
    ⟨"", "", "", "127.0.0.1:4000", 1, "", ""⟩ false ⟨"l", "p"⟩ "bin"
    ⟨fun _ => Except.ok (), fun _ => Except.ok ()⟩
    (fun _ _ => GetResult.ok 200 true) (fun _ => WaitEv.tick) "cause" 1
    ⟨[], []⟩ ⟨"h:1", "g:2", "m:3", "q:4", 1, "", "", ""⟩ "ms" ⟨"l", "p"⟩
    "bin" ⟨fun q => if q = "l/frontend.0" then Except.error "boom"
      else Except.ok (), fun _ => Except.ok ()⟩ ⟨[], []⟩ 0 0 "boom"
    (by decide) (fun j hj => absurd hj (by omega)) (by decide)
    (fun j hj => absurd hj (by omega))
  exact h.2.1.1 (by decide)

/-- C9 counterexample: with one frontend replica whose pid-directory
creation fails (log-directory creation having succeeded), `Start` ends with
`logsDirs` holding one entry while `pidsDirs` holds none — `allocatedDirs`
does not hold one log/pid pair per replica processed, refuting the claim
that every loop iteration appends one path to each list. -/
theorem allocatedDirs_pair_cex :
    ((frontendStart ⟨"h:1", "g:2", "m:3", "q:4", 1, "", "", ""⟩ "ms"
        ⟨"l", "pd"⟩ "bin"
        ⟨fun q => if q = "pd/frontend.0" then Except.error "boom"
          else Except.ok (), fun _ => Except.ok ()⟩
        ⟨[], []⟩).2.1.logsDirs.length = 1) ∧
    ((frontendStart ⟨"h:1", "g:2", "m:3", "q:4", 1, "", "", ""⟩ "ms"
        ⟨"l", "pd"⟩ "bin"
        ⟨fun q => if q = "pd/frontend.0" then Except.error "boom"
          else Except.ok (), fun _ => Except.ok ()⟩
        ⟨[], []⟩).2.1.pidsDirs.length = 0) ∧
    ((frontendStart ⟨"h:1", "g:2", "m:3", "q:4", 1, "", "", ""⟩ "ms"
        ⟨"l", "pd"⟩ "bin"
        ⟨fun q => if q = "pd/frontend.0" then Except.error "boom"
          else Except.ok (), fun _ => Except.ok ()⟩
        ⟨[], []⟩).2.2 = Except.error "boom") := by
  decide

/-- C9 (amended): during `Start` the `allocatedDirs` lists only grow — the
initial entries survive unchanged as a front segment and new log/pid paths
are appended in replica-index order; the pid list either matches the log
list replica-for-replica or, when an error struck between the two
directory creations of one iteration, lags it by exactly one entry; on a
successful spawn phase both lists gain exactly one entry per replica. -/
theorem allocatedDirs_monotone_growth (cfgM : MetaSrvConfig) (useMem : Bool)
    (dirsM : WorkingDirs) (binM : String) (envM : StartEnv)
    (henv : Nat → HttpEnv) (sel : Nat → WaitEv) (ctxErr : String)
    (fuel : Nat) (accM : allocatedDirs) (cfgF : FrontendConfig)
    (msAddr : String) (dirsF : WorkingDirs) (binF : String)
    (envF : StartEnv) (accF : allocatedDirs) :
    (∃ k k2, (k = k2 ∨ k = k2 + 1) ∧ k ≤ cfgM.Replicas ∧
      (metaSrvStart cfgM useMem dirsM binM envM henv sel ctxErr fuel
        accM).2.1.logsDirs =
        accM.logsDirs ++ logDirsFrom metaSrvName dirsM 0 k ∧
      (metaSrvStart cfgM useMem dirsM binM envM henv sel ctxErr fuel
        accM).2.1.pidsDirs =
        accM.pidsDirs ++ pidDirsFrom metaSrvName dirsM 0 k2 ∧
      ((metaSrvStart cfgM useMem dirsM binM envM henv sel ctxErr fuel
          accM).2.2 = some (Except.ok ()) →
        k = cfgM.Replicas ∧ k2 = cfgM.Replicas)) ∧
    (∃ k k2, (k = k2 ∨ k = k2 + 1) ∧ k ≤ cfgF.Replicas ∧
      (frontendStart cfgF msAddr dirsF binF envF accF).2.1.logsDirs =
        accF.logsDirs ++ logDirsFrom frontendName dirsF 0 k ∧
      (frontendStart cfgF msAddr dirsF binF envF accF).2.1.pidsDirs =
        accF.pidsDirs ++ pidDirsFrom frontendName dirsF 0 k2 ∧
      ((frontendStart cfgF msAddr dirsF binF envF accF).2.2 =
          Except.ok () →
        k = cfgF.Replicas ∧ k2 = cfgF.Replicas)) := by
  constructor
  · rcases spawnLoop_dirs metaSrvName dirsM binM (metaSrvArgsFun cfgM useMem)
      envM cfgM.Replicas 0 accM with ⟨k, k2, hpar, hle, hlog, hpid, hok⟩
    have hacc : (metaSrvStart cfgM useMem dirsM binM envM henv sel ctxErr
        fuel accM).2.1 =
        (spawnLoop metaSrvName dirsM binM (metaSrvArgsFun cfgM useMem) envM
          0 cfgM.Replicas accM).2.1 := by
      simp only [metaSrvStart]
      rcases hsp : (spawnLoop metaSrvName dirsM binM
          (metaSrvArgsFun cfgM useMem) envM 0 cfgM.Replicas accM).2.2
        with e | u
      · rfl
      · rfl
    refine ⟨k, k2, hpar, hle, by rw [hacc, hlog], by rw [hacc, hpid], ?_⟩
    intro h
    rcases hsp : (spawnLoop metaSrvName dirsM binM
        (metaSrvArgsFun cfgM useMem) envM 0 cfgM.Replicas accM).2.2
      with e2 | u
    · exfalso
      simp only [metaSrvStart] at h
      rw [hsp] at h
      simp only [] at h
      cases h
    · cases u
      exact hok hsp
  · rcases spawnLoop_dirs frontendName dirsF binF
      (frontendBuildArgs cfgF msAddr) envF cfgF.Replicas 0 accF
      with ⟨k, k2, hpar, hle, hlog, hpid, hok⟩
    exact ⟨k, k2, hpar, hle, hlog, hpid, fun h => hok h⟩

/-- Witness for C9's amended theorem: one frontend replica, all operations
succeeding. -/
theorem allocatedDirs_monotone_growth_witness :
    ∃ k k2, (k = k2 ∨ k = k2 + 1) ∧ k ≤
      (⟨"h:1", "g:2", "m:3", "q:4", 1, "", "", ""⟩ :
        FrontendConfig).Replicas ∧
      (frontendStart ⟨"h:1", "g:2", "m:3", "q:4", 1, "", "", ""⟩ "ms"
        ⟨"l", "pd"⟩ "bin" ⟨fun _ => Except.ok (), fun _ => Except.ok ()⟩
        ⟨[], []⟩).2.1.logsDirs =
        ([] : List String) ++ logDirsFrom frontendName ⟨"l", "pd"⟩ 0 k ∧
      (frontendStart ⟨"h:1", "g:2", "m:3", "q:4", 1, "", "", ""⟩ "ms"
        ⟨"l", "pd"⟩ "bin" ⟨fun _ => Except.ok (), fun _ => Except.ok ()⟩
        ⟨[], []⟩).2.1.pidsDirs =
        ([] : List String) ++ pidDirsFrom frontendName ⟨"l", "pd"⟩ 0 k2 ∧
      ((frontendStart ⟨"h:1", "g:2", "m:3", "q:4", 1, "", "", ""⟩ "ms"
        ⟨"l", "pd"⟩ "bin" ⟨fun _ => Except.ok (), fun _ => Except.ok ()⟩
        ⟨[], []⟩).2.2 = Except.ok () →
        k = (⟨"h:1", "g:2", "m:3", "q:4", 1, "", "", ""⟩ :
          FrontendConfig).Replicas ∧
        k2 = (⟨"h:1", "g:2", "m:3", "q:4", 1, "", "", ""⟩ :
          FrontendConfig).Replicas) :=
  (allocatedDirs_monotone_growth ⟨"", "", "", "127.0.0.1:4000", 0, "", ""⟩
    false ⟨"l", "pd"⟩ "bin" ⟨fun _ => Except.ok (), fun _ => Except.ok ()⟩
    (fun _ _ => GetResult.ok 200 true) (fun _ => WaitEv.tick) "cause" 1
    ⟨[], []⟩ ⟨"h:1", "g:2", "m:3", "q:4", 1, "", "", ""⟩ "ms" ⟨"l", "pd"⟩
    "bin" ⟨fun _ => Except.ok (), fun _ => Except.ok ()⟩ ⟨[], []⟩).2

end Gtctl
